import Mathlib

/-!
Shallow embedding of the conversation-session manager of `bot.py`
(discordassistantgpt): the thread cache, the persistent `user_threads`
store, the single-flight active-thread set, the session resolver of
`handle_user_message` (lines 310-321), the send/retry/run phase of
`handle_user_message` (lines 443-547), the cache janitor
`reset_thread_cache` (lines 123-150) and the chunking sender
`send_long_message` (lines 550-556).

Machine state is passed explicitly; MySQL calls that can raise are
modelled with `Except Unit`, and an `available` flag on the store says
whether the database is reachable.  Timestamps are naturals (seconds).
-/

namespace Bot

/-- A row of the `user_threads` table: the thread id for a user together
with the `last_used` timestamp. -/
structure ThreadRec where
  thread_id : String
  last_used : Nat
deriving Repr, DecidableEq

/-- The persistent store (`user_threads` table keyed by user id), plus a
flag saying whether MySQL is reachable; queries on an unavailable store
raise, modelled as `Except.error`. -/
structure Store where
  recs : List (String × ThreadRec)
  available : Bool
deriving Repr, DecidableEq

/-- The in-memory `thread_cache` dictionary: user id to thread id. -/
abbrev Cache := List (String × String)

/-- Dictionary read: first binding for the key, if any. -/
def cacheGet (c : Cache) (u : String) : Option String :=
  (c.find? (fun p => p.1 == u)).map (·.2)

/-- Dictionary write `thread_cache[u] = t`. -/
def cachePut (c : Cache) (u t : String) : Cache :=
  (u, t) :: c.filter (fun p => p.1 != u)

/-- Dictionary delete `del thread_cache[u]` (a no-op when absent, as in
the janitor where presence is checked first). -/
def cacheEvict (c : Cache) (u : String) : Cache :=
  c.filter (fun p => p.1 != u)

/-- Row lookup in the `user_threads` table. -/
def store_lookup (s : Store) (u : String) : Option ThreadRec :=
  (s.recs.find? (fun p => p.1 == u)).map (·.2)

/-- The query `SELECT thread_id FROM user_threads WHERE user_id = u`;
raises when the database is unreachable. -/
def store_select (s : Store) (u : String) : Except Unit (Option String) :=
  if s.available then .ok ((store_lookup s u).map (·.thread_id)) else .error ()

/-- The table after a successful upsert: the row for `u` replaced by
`(t, now)`, all other rows kept. -/
def upsertRow (s : Store) (u t : String) (now : Nat) : Store :=
  { s with recs := (u, ⟨t, now⟩) :: s.recs.filter (fun p => p.1 != u) }

/-- The query `INSERT INTO user_threads ... ON DUPLICATE KEY UPDATE
thread_id, last_used = CURRENT_TIMESTAMP`: upsert semantics, one row per
user, `last_used` refreshed to `now` even when the thread id is
unchanged.  Raises when the database is unreachable. -/
def store_upsert (s : Store) (u t : String) (now : Nat) : Except Unit Store :=
  if s.available then .ok (upsertRow s u t now) else .error ()

/-- The 24-hour staleness threshold of the janitor query, in seconds. -/
def STALE_THRESHOLD : Nat := 86400

/-- The query `SELECT user_id FROM user_threads WHERE last_used <
NOW() - INTERVAL 24 HOUR`; raises when the database is unreachable. -/
def store_list_stale (s : Store) (now : Nat) : Except Unit (List String) :=
  if s.available then
    .ok ((s.recs.filter (fun p => p.2.last_used + STALE_THRESHOLD < now)).map (·.1))
  else .error ()

/-- Observable events of one request cycle, in program order. -/
inductive Ev
  | createThread (tid : String)
  | cacheWrite (u tid : String)
  | storeUpsert (u tid : String)
  | send (tid : String)
  | userErr
  | run (tid : String)
  | reply
deriving Repr, DecidableEq

/-- `save_thread` of bot.py (lines 173-191): writes the cache, then
upserts into MySQL; the whole body is wrapped in `try/except` that only
logs, so the function always returns normally and a store failure leaves
the store unchanged while the cache write has already happened. -/
def save_thread (c : Cache) (s : Store) (u t : String) (now : Nat) :
    Cache × Store × List Ev :=
  let c1 := cachePut c u t
  match store_upsert s u t now with
  | .ok s1 => (c1, s1, [.cacheWrite u t, .storeUpsert u t])
  | .error _ => (c1, s, [.cacheWrite u t])

/-- `get_thread_id` of bot.py (lines 194-209): cache first; on a miss
query MySQL (no `try/except` here, so a store failure propagates to the
caller); a store hit populates the cache; no row at all gives `none`. -/
def get_thread_id (c : Cache) (s : Store) (u : String) :
    Except Unit (Option String × Cache) :=
  match cacheGet c u with
  | some t => .ok (some t, c)
  | none =>
    match store_select s u with
    | .error e => .error e
    | .ok (some t) => .ok (some t, cachePut c u t)
    | .ok none => .ok (none, c)

/-- Result of the session-resolver phase of `handle_user_message`. -/
structure ResolveOut where
  tid : String
  cache : Cache
  store : Store
  events : List Ev
deriving Repr, DecidableEq

/-- The session-resolver phase of `handle_user_message` (lines 310-321):
`get_thread_id`; if no thread exists, create one at the backend
(`freshTid` is the id the backend returns); in every case call
`save_thread`, refreshing `last_used`. -/
def resolve_session (c : Cache) (s : Store) (u : String) (freshTid : String)
    (now : Nat) : Except Unit ResolveOut :=
  match get_thread_id c s u with
  | .error e => .error e
  | .ok (some t, c1) =>
      let r := save_thread c1 s u t now
      .ok ⟨t, r.1, r.2.1, r.2.2⟩
  | .ok (none, c1) =>
      let r := save_thread c1 s u freshTid now
      .ok ⟨freshTid, r.1, r.2.1, .createThread freshTid :: r.2.2⟩

/-- Distinguished outcomes of a backend `messages.create` call: the 404
"No thread found with id" error versus any other exception. -/
inductive SendErr
  | threadNotFound
  | otherError
deriving Repr, DecidableEq

/-- A scripted backend for one request cycle: the outcome of the first
`messages.create`, the id `threads.create` would return in the retry
branch, the outcome of the retried `messages.create`, and whether
`runs.create_and_poll` completes without raising. -/
structure Backend where
  firstSend : Option SendErr
  freshTid : String
  retrySend : Option SendErr
  runOk : Bool
deriving Repr, DecidableEq

/-- Final state and trace of the send/run phase of one request cycle. -/
structure Trace where
  cache : Cache
  store : Store
  active : List String
  events : List Ev
  dropped : Bool
  replied : Bool
deriving Repr, DecidableEq

/-- Lines 485-547 of bot.py: `runs.create_and_poll`, then (token logging
elided) `active_threads.discard(tid)`, fetch and send the reply.  When
the run raises, the exception escapes to the catch-all at line 546 which
only prints: the discard at line 526 is skipped and no reply is sent. -/
def run_and_reply (b : Backend) (c : Cache) (s : Store) (active : List String)
    (tid : String) (evs : List Ev) : Trace :=
  if b.runOk then
    { cache := c, store := s, active := active.erase tid,
      events := evs ++ [.run tid, .reply], dropped := false, replied := true }
  else
    { cache := c, store := s, active := active,
      events := evs ++ [.run tid], dropped := false, replied := false }

/-- Lines 443-547 of bot.py: the single-flight check and the
send/retry/run phase of `handle_user_message`.

Control flow mirrors the source exactly:
the message is silently dropped when `tid` is already active; otherwise
`tid` is added to `active_threads` and `messages.create` is attempted.
On the "No thread found with id" error a new thread is created,
`save_thread` persists it, and the send is retried once with the new id
(note the variable `thread_id` is reassigned, so the later discards name
the new id, not the one that was added).  On any other send error the
code messages the user but does not return: it falls through to the run
with the original id.  If the retried send raises, the outer handler
messages the user, discards the reassigned id and returns. -/
def handle_send_run (b : Backend) (c : Cache) (s : Store) (active : List String)
    (u tid : String) (now : Nat) : Trace :=
  if tid ∈ active then
    { cache := c, store := s, active := active, events := [],
      dropped := true, replied := false }
  else
    let a1 := tid :: active
    match b.firstSend with
    | none => run_and_reply b c s a1 tid [.send tid]
    | some .threadNotFound =>
        let t2 := b.freshTid
        let r := save_thread c s u t2 now
        match b.retrySend with
        | none =>
            run_and_reply b r.1 r.2.1 a1 t2
              ([.send tid, .createThread t2] ++ r.2.2 ++ [.send t2])
        | some _ =>
            { cache := r.1, store := r.2.1, active := a1.erase t2,
              events := [.send tid, .createThread t2] ++ r.2.2 ++ [.send t2, .userErr],
              dropped := false, replied := false }
    | some .otherError =>
        run_and_reply b c s a1 tid [.send tid, .userErr]

/-- One timer iteration of `reset_thread_cache` (lines 123-150): query
the store for user ids stale beyond 24 hours and delete exactly those
from the cache; the store is only read.  A store failure is caught and
logged, leaving the cache unchanged. -/
def reset_thread_cache_cycle (s : Store) (c : Cache) (now : Nat) :
    Cache × Store :=
  match store_list_stale s now with
  | .error _ => (c, s)
  | .ok stale => (stale.foldl cacheEvict c, s)

/-- `send_long_message` of bot.py (lines 550-556): slices the text into
consecutive chunks of at most 2000 characters and sends them in order;
an empty text makes the loop body never run. -/
def send_long_message (text : List Char) : List (List Char) :=
  if h : text = [] then []
  else text.take 2000 :: send_long_message (text.drop 2000)
termination_by text.length
decreasing_by
  simp only [List.length_drop]
  exact Nat.sub_lt (List.length_pos.mpr h) (by norm_num)

/-! Helper lemmas about the cache and store dictionaries. -/

theorem cacheGet_put_self (c : Cache) (u t : String) :
    cacheGet (cachePut c u t) u = some t := by
  simp [cacheGet, cachePut, List.find?]

theorem cacheGet_evict_self (c : Cache) (u : String) :
    cacheGet (cacheEvict c u) u = none := by
  simp [cacheGet, cacheEvict, List.find?_eq_none]

theorem cacheGet_evict_ne (c : Cache) (u v : String) (h : v ≠ u) :
    cacheGet (cacheEvict c u) v = cacheGet c v := by
  unfold cacheGet cacheEvict
  rw [List.find?_filter]
  congr 2
  funext a
  by_cases hv : a.1 = v
  · simp [hv, h]
  · simp [hv]

theorem cacheGet_foldl_evict (l : List String) (c : Cache) (u : String) :
    cacheGet (l.foldl cacheEvict c) u =
      if u ∈ l then none else cacheGet c u := by
  induction l generalizing c with
  | nil => simp
  | cons a l ih =>
    simp only [List.foldl_cons, ih]
    by_cases h : u = a
    · subst h
      by_cases hl : u ∈ l <;> simp [hl, cacheGet_evict_self]
    · by_cases hl : u ∈ l <;>
        simp [hl, h, cacheGet_evict_ne c a u h]

theorem store_lookup_upsertRow_self (s : Store) (u t : String) (now : Nat) :
    store_lookup (upsertRow s u t now) u = some ⟨t, now⟩ := by
  simp [store_lookup, upsertRow, List.find?]

theorem upsertRow_available (s : Store) (u t : String) (now : Nat) :
    (upsertRow s u t now).available = s.available := rfl

theorem save_thread_of_available (c : Cache) (s : Store) (u t : String)
    (now : Nat) (ha : s.available = true) :
    save_thread c s u t now =
      (cachePut c u t, upsertRow s u t now,
       [.cacheWrite u t, .storeUpsert u t]) := by
  simp [save_thread, store_upsert, ha]

/-! Unfolding equations for the chunking sender. -/

theorem send_long_message_nil : send_long_message [] = [] := by
  unfold send_long_message
  rfl

theorem send_long_message_ne_nil (t : List Char) (h : t ≠ []) :
    send_long_message t = t.take 2000 :: send_long_message (t.drop 2000) := by
  rw [send_long_message]
  exact dif_neg h

theorem send_long_message_join_aux :
    ∀ (n : Nat) (t : List Char), t.length ≤ n →
      (send_long_message t).flatten = t := by
  intro n
  induction n with
  | zero =>
    intro t ht
    have h0 : t = [] := List.length_eq_zero.mp (Nat.le_zero.mp ht)
    subst h0
    simp [send_long_message_nil]
  | succ n ih =>
    intro t ht
    by_cases h : t = []
    · subst h; simp [send_long_message_nil]
    · have hpos : 0 < t.length := List.length_pos.mpr h
      have hlt : (t.drop 2000).length ≤ n := by
        simp only [List.length_drop]
        omega
      rw [send_long_message_ne_nil t h, List.flatten_cons, ih (t.drop 2000) hlt,
        List.take_append_drop]

theorem send_long_message_short_aux :
    ∀ (n : Nat) (t : List Char), t.length ≤ n →
      ∀ ch ∈ send_long_message t, ch.length ≤ 2000 := by
  intro n
  induction n with
  | zero =>
    intro t ht ch hch
    have h0 : t = [] := List.length_eq_zero.mp (Nat.le_zero.mp ht)
    subst h0
    rw [send_long_message_nil] at hch
    simp at hch
  | succ n ih =>
    intro t ht ch hch
    by_cases h : t = []
    · subst h
      rw [send_long_message_nil] at hch
      simp at hch
    · have hpos : 0 < t.length := List.length_pos.mpr h
      have hlt : (t.drop 2000).length ≤ n := by
        simp only [List.length_drop]
        omega
      rw [send_long_message_ne_nil t h] at hch
      rcases List.mem_cons.mp hch with rfl | hmem
      · exact List.length_take_le 2000 t
      · exact ih (t.drop 2000) hlt ch hmem

/-- C10: the chunking sender emits chunks in order, each of length at
most 2000 characters, whose concatenation is the original text; an empty
text produces no chunks. -/
theorem send_long_message_spec (t : List Char) :
    (∀ ch ∈ send_long_message t, ch.length ≤ 2000) ∧
    (send_long_message t).flatten = t ∧
    send_long_message ([] : List Char) = [] :=
  ⟨send_long_message_short_aux t.length t le_rfl,
   send_long_message_join_aux t.length t le_rfl,
   send_long_message_nil⟩

theorem send_long_message_hi :
    send_long_message ['h', 'i'] = [['h', 'i']] := by
  rw [send_long_message_ne_nil _ (by decide),
    show List.drop 2000 ['h', 'i'] = [] from rfl, send_long_message_nil]
  rfl

/-- Closed instance of C10 at a concrete text. -/
theorem send_long_message_spec_witness :
    (['h', 'i'] : List Char).length ≤ 2000 ∧
    (send_long_message ['h', 'i']).flatten = ['h', 'i'] :=
  ⟨(send_long_message_spec ['h', 'i']).1 ['h', 'i']
      (by rw [send_long_message_hi]; exact List.mem_singleton_self _),
   (send_long_message_spec ['h', 'i']).2.1⟩

/-- C8: when the resolved thread id is already in the active set the
message is silently dropped: no backend call is issued, nothing is
queued, no reply and no error message is produced, and all state is
unchanged. -/
theorem single_flight_drop (b : Backend) (c : Cache) (s : Store)
    (active : List String) (u tid : String) (now : Nat) (h : tid ∈ active) :
    handle_send_run b c s active u tid now =
      { cache := c, store := s, active := active, events := [],
        dropped := true, replied := false } := by
  simp [handle_send_run, h]

/-- Closed instance of C8 at a concrete state. -/
theorem single_flight_drop_witness :
    ("T1" ∈ ["T1"]) ∧
    handle_send_run ⟨none, "T2", none, true⟩ [] ⟨[], true⟩ ["T1"] "U1" "T1" 0 =
      { cache := [], store := ⟨[], true⟩, active := ["T1"], events := [],
        dropped := true, replied := false } :=
  ⟨List.mem_singleton_self "T1",
   single_flight_drop ⟨none, "T2", none, true⟩ [] ⟨[], true⟩ ["T1"] "U1" "T1" 0
     (List.mem_singleton_self "T1")⟩

/-- C9: one janitor cycle on a reachable store evicts from the cache
exactly the users whose stored last_used timestamp is older than the
24-hour threshold, leaves every other cache entry unchanged, and never
modifies the durable store. -/
theorem reset_thread_cache_cycle_spec (s : Store) (c : Cache) (now : Nat)
    (ha : s.available = true) :
    (reset_thread_cache_cycle s c now).2 = s ∧
    (∀ u : String,
      (∃ p ∈ s.recs, p.1 = u ∧ p.2.last_used + STALE_THRESHOLD < now) →
        cacheGet (reset_thread_cache_cycle s c now).1 u = none) ∧
    (∀ u : String,
      (¬ ∃ p ∈ s.recs, p.1 = u ∧ p.2.last_used + STALE_THRESHOLD < now) →
        cacheGet (reset_thread_cache_cycle s c now).1 u = cacheGet c u) := by
  have hmem : ∀ u : String,
      (u ∈ (s.recs.filter
          (fun p => p.2.last_used + STALE_THRESHOLD < now)).map (·.1)) ↔
        ∃ p ∈ s.recs, p.1 = u ∧ p.2.last_used + STALE_THRESHOLD < now := by
    intro u
    simp only [List.mem_map, List.mem_filter, decide_eq_true_eq]
    constructor
    · rintro ⟨p, ⟨hp, hst⟩, he⟩
      exact ⟨p, hp, he, hst⟩
    · rintro ⟨p, hp, he, hst⟩
      exact ⟨p, ⟨hp, hst⟩, he⟩
  have hcyc : reset_thread_cache_cycle s c now =
      (((s.recs.filter
          (fun p => p.2.last_used + STALE_THRESHOLD < now)).map (·.1)).foldl
        cacheEvict c, s) := by
    simp [reset_thread_cache_cycle, store_list_stale, ha]
  have hcyc1 : (reset_thread_cache_cycle s c now).1 =
      ((s.recs.filter
          (fun p => p.2.last_used + STALE_THRESHOLD < now)).map (·.1)).foldl
        cacheEvict c := by
    rw [hcyc]
  have hcyc2 : (reset_thread_cache_cycle s c now).2 = s := by
    rw [hcyc]
  refine ⟨hcyc2, ?_, ?_⟩
  · intro u hu
    rw [hcyc1, cacheGet_foldl_evict, if_pos ((hmem u).mpr hu)]
  · intro u hu
    rw [hcyc1, cacheGet_foldl_evict, if_neg (fun hx => hu ((hmem u).mp hx))]

def janitorStore : Store := ⟨[("U2", ⟨"T2", 0⟩), ("U1", ⟨"T1", 200000⟩)], true⟩

def janitorCache : Cache := [("U1", "T1"), ("U2", "T2")]

/-- Closed instance of C9: the stale user U2 is evicted from the cache
while its store row survives, and the fresh user U1 keeps its entry. -/
theorem reset_thread_cache_cycle_witness :
    janitorStore.available = true ∧
    (reset_thread_cache_cycle janitorStore janitorCache 90000).2 = janitorStore ∧
    cacheGet (reset_thread_cache_cycle janitorStore janitorCache 90000).1 "U2" = none ∧
    cacheGet (reset_thread_cache_cycle janitorStore janitorCache 90000).1 "U1" =
      cacheGet janitorCache "U1" ∧
    store_lookup (reset_thread_cache_cycle janitorStore janitorCache 90000).2 "U2" =
      some ⟨"T2", 0⟩ := by
  have h := reset_thread_cache_cycle_spec janitorStore janitorCache 90000 rfl
  refine ⟨rfl, h.1, h.2.1 "U2" (by decide), h.2.2 "U1" (by decide), ?_⟩
  rw [h.1]
  decide

/-- C2: when the first send fails with the distinguished thread-not-found
error and the retry succeeds, exactly one new thread id is requested from
the backend, it is written to the cache and upserted into the store
before the retry, the send is retried exactly once with the new id, and
the cycle succeeds with the store and cache holding the new id. -/
theorem stale_retry_recovers (b : Backend) (c : Cache) (s : Store)
    (active : List String) (u tid : String) (now : Nat)
    (hni : tid ∉ active) (ha : s.available = true)
    (h1 : b.firstSend = some .threadNotFound)
    (h2 : b.retrySend = none) (hr : b.runOk = true) :
    (handle_send_run b c s active u tid now).events =
      [.send tid, .createThread b.freshTid, .cacheWrite u b.freshTid,
       .storeUpsert u b.freshTid, .send b.freshTid, .run b.freshTid, .reply] ∧
    (handle_send_run b c s active u tid now).replied = true ∧
    store_lookup (handle_send_run b c s active u tid now).store u =
      some ⟨b.freshTid, now⟩ ∧
    cacheGet (handle_send_run b c s active u tid now).cache u =
      some b.freshTid := by
  have hsave := save_thread_of_available c s u b.freshTid now ha
  simp [handle_send_run, hni, h1, h2, hr, run_and_reply, hsave,
    store_lookup_upsertRow_self, cacheGet_put_self]

/-- Closed instance of C2 at a concrete backend and state. -/
theorem stale_retry_recovers_witness :
    (("T1" : String) ∉ ([] : List String)) ∧
    (handle_send_run ⟨some .threadNotFound, "T2", none, true⟩ []
        ⟨[("U1", ⟨"T1", 0⟩)], true⟩ [] "U1" "T1" 7).events =
      [.send "T1", .createThread "T2", .cacheWrite "U1" "T2",
       .storeUpsert "U1" "T2", .send "T2", .run "T2", .reply] ∧
    store_lookup (handle_send_run ⟨some .threadNotFound, "T2", none, true⟩ []
        ⟨[("U1", ⟨"T1", 0⟩)], true⟩ [] "U1" "T1" 7).store "U1" =
      some ⟨"T2", 7⟩ := by
  have h := stale_retry_recovers ⟨some .threadNotFound, "T2", none, true⟩ []
    ⟨[("U1", ⟨"T1", 0⟩)], true⟩ [] "U1" "T1" 7 (by decide) rfl rfl rfl rfl
  exact ⟨by decide, h.1, h.2.2.1⟩

/-- C1 fails on the code: after a fully successful stale-retry cycle the
originally acquired thread id is still in the active set (the variable
was reassigned, so the discard at line 526 names the new id instead),
and when the run phase raises, the catch-all at line 546 skips the
discard, so the id also stays active on that path. -/
theorem active_threads_leak :
    (handle_send_run ⟨some .threadNotFound, "T2", none, true⟩ []
        ⟨[("U1", ⟨"T1", 0⟩)], true⟩ [] "U1" "T1" 10).replied = true ∧
    (handle_send_run ⟨some .threadNotFound, "T2", none, true⟩ []
        ⟨[("U1", ⟨"T1", 0⟩)], true⟩ [] "U1" "T1" 10).active = ["T1"] ∧
    (handle_send_run ⟨none, "T2", none, false⟩ []
        ⟨[("U1", ⟨"T1", 0⟩)], true⟩ [] "U1" "T1" 10).active = ["T1"] := by
  decide

/-- C3 fails on the code: after a generic send failure the user is
messaged but the handler does not abort; the branch at lines 474-477 has
no return, so the handler still runs the assistant on the original
thread and sends the reply (the userErr event is followed by run and
reply events). -/
theorem generic_error_continues :
    (handle_send_run ⟨some .otherError, "T2", none, true⟩ []
        ⟨[("U1", ⟨"T1", 0⟩)], true⟩ [] "U1" "T1" 10).events =
      [.send "T1", .userErr, .run "T1", .reply] := by
  decide

/-- C4: a user with no cache entry and no store row gets exactly one new
thread which is persisted with the resolve time; an immediate second
resolve returns the same thread id and creates nothing. -/
theorem resolve_session_idempotent (c : Cache) (s : Store) (u n1 n2 : String)
    (now now2 : Nat) (hc : cacheGet c u = none)
    (hs : store_lookup s u = none) (ha : s.available = true) :
    ∃ r1 r2,
      resolve_session c s u n1 now = .ok r1 ∧
      resolve_session r1.cache r1.store u n2 now2 = .ok r2 ∧
      r1.tid = n1 ∧
      r1.events = [.createThread n1, .cacheWrite u n1, .storeUpsert u n1] ∧
      store_lookup r1.store u = some ⟨n1, now⟩ ∧
      r2.tid = n1 ∧
      r2.events = [.cacheWrite u n1, .storeUpsert u n1] := by
  have hsel : store_select s u = .ok none := by
    simp [store_select, ha, hs]
  have e1 : resolve_session c s u n1 now =
      .ok ⟨n1, cachePut c u n1, upsertRow s u n1 now,
        [.createThread n1, .cacheWrite u n1, .storeUpsert u n1]⟩ := by
    simp [resolve_session, get_thread_id, hc, hsel,
      save_thread_of_available _ _ _ _ _ ha]
  have ha2 : (upsertRow s u n1 now).available = true := by
    rw [upsertRow_available]
    exact ha
  have e2 : resolve_session (cachePut c u n1) (upsertRow s u n1 now) u n2 now2 =
      .ok ⟨n1, cachePut (cachePut c u n1) u n1,
        upsertRow (upsertRow s u n1 now) u n1 now2,
        [.cacheWrite u n1, .storeUpsert u n1]⟩ := by
    simp [resolve_session, get_thread_id, cacheGet_put_self,
      save_thread_of_available _ _ _ _ _ ha2]
  exact ⟨_, _, e1, e2, rfl, rfl, store_lookup_upsertRow_self s u n1 now, rfl, rfl⟩

/-- Closed instance of C4 at a concrete empty state. -/
theorem resolve_session_idempotent_witness :
    cacheGet [] "U1" = none ∧
    store_lookup ⟨[], true⟩ "U1" = none ∧
    (Store.mk [] true).available = true ∧
    (resolve_session [] ⟨[], true⟩ "U1" "N1" 3).map (·.tid) = .ok "N1" := by
  obtain ⟨r1, r2, h1, h2, h3, h4, h5, h6, h7⟩ :=
    resolve_session_idempotent [] ⟨[], true⟩ "U1" "N1" "N2" 3 4 rfl rfl rfl
  refine ⟨rfl, rfl, rfl, ?_⟩
  rw [h1]
  simp [Except.map, h3]

/-- C5: after any successful resolve on an available store, the cache
entry for the user equals the thread id the store holds for that user. -/
theorem resolve_cache_store_agree (c : Cache) (s : Store) (u fresh : String)
    (now : Nat) (r : ResolveOut) (ha : s.available = true)
    (h : resolve_session c s u fresh now = .ok r) :
    cacheGet r.cache u = (store_lookup r.store u).map (·.thread_id) := by
  rcases hg : cacheGet c u with _ | t
  · rcases hsl : store_lookup s u with _ | rec
    · have hsel : store_select s u = .ok none := by
        simp [store_select, ha, hsl]
      simp [resolve_session, get_thread_id, hg, hsel,
        save_thread_of_available _ _ _ _ _ ha] at h
      subst h
      simp [cacheGet_put_self, store_lookup_upsertRow_self]
    · have hsel : store_select s u = .ok (some rec.thread_id) := by
        simp [store_select, ha, hsl]
      simp [resolve_session, get_thread_id, hg, hsel,
        save_thread_of_available _ _ _ _ _ ha] at h
      subst h
      simp [cacheGet_put_self, store_lookup_upsertRow_self]
  · simp [resolve_session, get_thread_id, hg,
      save_thread_of_available _ _ _ _ _ ha] at h
    subst h
    simp [cacheGet_put_self, store_lookup_upsertRow_self]

/-- Closed instance of C5 at a concrete fresh-creation resolve. -/
theorem resolve_cache_store_agree_witness :
    (Store.mk [] true).available = true ∧
    resolve_session [] ⟨[], true⟩ "U1" "N1" 3 =
      .ok ⟨"N1", [("U1", "N1")], ⟨[("U1", ⟨"N1", 3⟩)], true⟩,
        [.createThread "N1", .cacheWrite "U1" "N1", .storeUpsert "U1" "N1"]⟩ ∧
    cacheGet [("U1", "N1")] "U1" =
      (store_lookup ⟨[("U1", ⟨"N1", 3⟩)], true⟩ "U1").map (·.thread_id) := by
  refine ⟨rfl, rfl, ?_⟩
  exact resolve_cache_store_agree [] ⟨[], true⟩ "U1" "N1" 3
    ⟨"N1", [("U1", "N1")], ⟨[("U1", ⟨"N1", 3⟩)], true⟩,
      [.createThread "N1", .cacheWrite "U1" "N1", .storeUpsert "U1" "N1"]⟩
    rfl rfl

/-- C6: every successful resolve on an available store performs a store
upsert for the user and leaves a row whose last_used equals the resolve
time, whichever of cache hit, store hit or fresh creation produced the
thread id, and even when the thread id is unchanged. -/
theorem resolve_refreshes_last_used (c : Cache) (s : Store) (u fresh : String)
    (now : Nat) (r : ResolveOut) (ha : s.available = true)
    (h : resolve_session c s u fresh now = .ok r) :
    store_lookup r.store u = some ⟨r.tid, now⟩ ∧
    (Ev.storeUpsert u r.tid) ∈ r.events := by
  rcases hg : cacheGet c u with _ | t
  · rcases hsl : store_lookup s u with _ | rec
    · have hsel : store_select s u = .ok none := by
        simp [store_select, ha, hsl]
      simp [resolve_session, get_thread_id, hg, hsel,
        save_thread_of_available _ _ _ _ _ ha] at h
      subst h
      simp [store_lookup_upsertRow_self]
    · have hsel : store_select s u = .ok (some rec.thread_id) := by
        simp [store_select, ha, hsl]
      simp [resolve_session, get_thread_id, hg, hsel,
        save_thread_of_available _ _ _ _ _ ha] at h
      subst h
      simp [store_lookup_upsertRow_self]
  · simp [resolve_session, get_thread_id, hg,
      save_thread_of_available _ _ _ _ _ ha] at h
    subst h
    simp [store_lookup_upsertRow_self]

/-- Closed instance of C6 at a cache hit with unchanged thread id: the
row's last_used moves from 0 to the resolve time 99. -/
theorem resolve_refreshes_last_used_witness :
    (Store.mk [("U1", ⟨"T1", 0⟩)] true).available = true ∧
    resolve_session [("U1", "T1")] ⟨[("U1", ⟨"T1", 0⟩)], true⟩ "U1" "N1" 99 =
      .ok ⟨"T1", [("U1", "T1")], ⟨[("U1", ⟨"T1", 99⟩)], true⟩,
        [.cacheWrite "U1" "T1", .storeUpsert "U1" "T1"]⟩ ∧
    store_lookup (Store.mk [("U1", ⟨"T1", 99⟩)] true) "U1" = some ⟨"T1", 99⟩ := by
  refine ⟨rfl, rfl, ?_⟩
  exact (resolve_refreshes_last_used [("U1", "T1")] ⟨[("U1", ⟨"T1", 0⟩)], true⟩
    "U1" "N1" 99
    ⟨"T1", [("U1", "T1")], ⟨[("U1", ⟨"T1", 99⟩)], true⟩,
      [.cacheWrite "U1" "T1", .storeUpsert "U1" "T1"]⟩
    rfl rfl).1

/-- C7 as stated is false at this input: the store is unreachable, the
upsert inside the resolve fails, yet the call returns ok with the old
row untouched (last_used still 0) and no error surfaced to the caller. -/
theorem resolve_session_swallows_upsert_failure :
    resolve_session [("U1", "T1")] ⟨[("U1", ⟨"T1", 0⟩)], false⟩ "U1" "N1" 5 =
      .ok ⟨"T1", [("U1", "T1")], ⟨[("U1", ⟨"T1", 0⟩)], false⟩,
        [.cacheWrite "U1" "T1"]⟩ := rfl

/-- C7 amended: a store failure on the read path of resolution (cache
miss) is surfaced to the caller as an error, never treated as no-thread,
and the request does not proceed; a store failure during the upsert,
however, is caught inside save_thread and not surfaced: the call returns
normally with the store unchanged and only the cache updated. -/
theorem store_failure_handling (c : Cache) (s : Store) (u t fresh : String)
    (now : Nat) (hc : cacheGet c u = none) (ha : s.available = false) :
    get_thread_id c s u = .error () ∧
    resolve_session c s u fresh now = .error () ∧
    (save_thread c s u t now).2.1 = s ∧
    cacheGet (save_thread c s u t now).1 u = some t := by
  have hsel : store_select s u = .error () := by
    simp [store_select, ha]
  have hget : get_thread_id c s u = .error () := by
    simp [get_thread_id, hc, hsel]
  have hsw : save_thread c s u t now = (cachePut c u t, s, [.cacheWrite u t]) := by
    simp [save_thread, store_upsert, ha]
  refine ⟨hget, ?_, ?_, ?_⟩
  · simp [resolve_session, hget]
  · rw [hsw]
  · rw [hsw]
    exact cacheGet_put_self c u t

/-- Closed instance of the amended C7 at a concrete unreachable store. -/
theorem store_failure_handling_witness :
    cacheGet [] "U1" = none ∧
    (Store.mk [("U1", ⟨"T1", 0⟩)] false).available = false ∧
    get_thread_id [] ⟨[("U1", ⟨"T1", 0⟩)], false⟩ "U1" = .error () ∧
    resolve_session [] ⟨[("U1", ⟨"T1", 0⟩)], false⟩ "U1" "N1" 5 = .error () ∧
    (save_thread [] ⟨[("U1", ⟨"T1", 0⟩)], false⟩ "U1" "T9" 5).2.1 =
      ⟨[("U1", ⟨"T1", 0⟩)], false⟩ := by
  have h := store_failure_handling [] ⟨[("U1", ⟨"T1", 0⟩)], false⟩
    "U1" "T9" "N1" 5 rfl rfl
  exact ⟨rfl, rfl, h.1, h.2.1, h.2.2.1⟩

end Bot
